import Mathlib

/-!
Verification development for the vnpy_rqdata adapter (RQData datafeed and
live market-data gateway).  The Python sources `rqdata_datafeed.py` and
`rqdata_gateway.py` are shallowly embedded below: pure string logic becomes
Lean functions on `String`/`List Char`, stateful methods become explicit
state-passing functions, and Python exceptions (AttributeError, IndexError,
KeyError, NameError, provider errors) become `Except String` results.
External collaborators (the rqdatac provider, the threading library) are
passed in as explicit parameters or modelled by small operational types.
-/

namespace VnpyRqdata

/-! ## Python string primitives

`pyUpper` models `str.upper`, `pyIsDigit` models `str.isdigit` (true only on
non-empty all-digit strings), `pyIsAlpha` models `str.isalpha` (true only on
non-empty all-alphabetic strings).  Inputs in this domain are ASCII. -/

def pyUpper (s : String) : String :=
  (s.toList.map Char.toUpper).asString

def pyIsDigit (s : String) : Bool :=
  !s.isEmpty && s.toList.all Char.isDigit

def pyIsAlpha (s : String) : Bool :=
  !s.isEmpty && s.toList.all Char.isAlpha

/-- Models `str.replace(c, "")` for a single-character pattern: every
occurrence of the character is removed. -/
def removeChar (c : Char) (s : String) : String :=
  (s.toList.filter (fun x => x ≠ c)).asString

/-- Models `str.split(sep)` for a single-character separator. -/
def splitOnChar (sep : Char) : List Char → List (List Char)
  | [] => [[]]
  | c :: rest =>
    let r := splitOnChar sep rest
    if c = sep then [] :: r
    else
      match r with
      | [] => [[c]]
      | h :: t => (c :: h) :: t

/-! ## Platform enums (from vnpy.trader.constant)

Only the exchanges and intervals this adapter mentions are modelled. -/

inductive Exchange
  | SSE | SZSE | BSE | SGE | CFFEX | SHFE | DCE | CZCE | INE | GFEX
  deriving DecidableEq, Repr

def Exchange.value : Exchange → String
  | .SSE => "SSE"
  | .SZSE => "SZSE"
  | .BSE => "BSE"
  | .SGE => "SGE"
  | .CFFEX => "CFFEX"
  | .SHFE => "SHFE"
  | .DCE => "DCE"
  | .CZCE => "CZCE"
  | .INE => "INE"
  | .GFEX => "GFEX"

inductive Interval
  | MINUTE | HOUR | DAILY | WEEKLY | TICK
  deriving DecidableEq, Repr

def Interval.value : Interval → String
  | .MINUTE => "1m"
  | .HOUR => "1h"
  | .DAILY => "d"
  | .WEEKLY => "w"
  | .TICK => "tick"

/-! ## Symbol translation (`to_rq_symbol`, rqdata_datafeed.py lines 43-120) -/

/-- The index `count` left by the loop
`for count, word in enumerate(symbol): if word.isdigit(): break`:
the index of the first digit, or the last index when no digit occurs.
(On the empty string the Python loop leaves `count` unbound; the model
returns 0, an input outside the domain exercised by any claim.) -/
def firstDigitCount (s : String) : Nat :=
  (s.toList.findIdx? Char.isDigit).getD (s.toList.length - 1)

/-- `product = symbol[:count]`, `time_str = symbol[count:]`. -/
def splitAtFirstDigit (s : String) : String × String :=
  ((s.toList.take (firstDigitCount s)).asString,
   (s.toList.drop (firstDigitCount s)).asString)

/-- The continuous/index contract literals checked at line 80. -/
def czceLiteralCodes : List String :=
  ["88", "888", "99", "889", "88A2"]

def FUTURES_EXCHANGES : List Exchange :=
  [.CFFEX, .SHFE, .CZCE, .DCE, .INE, .GFEX]

/-- Embedding of `to_rq_symbol(symbol, exchange, all_symbols)`.
`symbol[count]` and `symbol[count + 1:]` in the source are exactly the head
and tail of the time suffix, written here as `time_str.take 1` and
`time_str.drop 1`. -/
def to_rq_symbol (symbol : String) (exchange : Exchange) (all_symbols : List String) : String :=
  if exchange = .SSE then symbol ++ ".XSHG"
  else if exchange = .SZSE then symbol ++ ".XSHE"
  else if exchange = .SGE then
    pyUpper (removeChar '+' (removeChar ')' (removeChar '(' symbol))) ++ ".SGEX"
  else if exchange ∈ [Exchange.CFFEX, .SHFE, .DCE, .CZCE, .INE, .GFEX] then
    let ps := splitAtFirstDigit symbol
    let product := ps.1
    let time_str := ps.2
    if pyIsDigit time_str then
      if exchange ≠ .CZCE then pyUpper symbol
      else if time_str ∈ czceLiteralCodes then symbol
      else
        let year := time_str.take 1
        let month := time_str.drop 1
        let guess_1 := pyUpper (product ++ "1" ++ year ++ month)
        let guess_2 := pyUpper (product ++ "2" ++ year ++ month)
        if guess_2 ∈ all_symbols then guess_2 else guess_1
    else
      if exchange ∈ [Exchange.CFFEX, .DCE, .SHFE, .INE, .GFEX] then
        pyUpper (removeChar '-' symbol)
      else
        let year := time_str.take 1
        let suffix := time_str.drop 1
        let guess_1 := pyUpper (product ++ "1" ++ year ++ suffix)
        let guess_2 := pyUpper (product ++ "2" ++ year ++ suffix)
        if guess_2 ∈ all_symbols then guess_2 else guess_1
  else symbol ++ "." ++ exchange.value

example : to_rq_symbol "AP905" .CZCE ["AP2905"] = "AP2905" := by decide

example : to_rq_symbol "AP905" .CZCE [] = "AP1905" := by decide

example : to_rq_symbol "rb2410" .SHFE [] = "RB2410" := by decide

example : to_rq_symbol "SR905C5000" .CZCE [] = "SR1905C5000" := by decide

example : to_rq_symbol "AP888" .CZCE ["AP2888"] = "AP888" := by decide

example : to_rq_symbol "AP88A2" .CZCE [] = "AP188A2" := by decide

example : to_rq_symbol "600000" .SSE [] = "600000.XSHG" := by decide

example : to_rq_symbol "Au(T+D)" .SGE [] = "AUTD.SGEX" := by decide

/-! ## Datafeed historical query service (`RqdataDatafeed`)

State and methods of `RqdataDatafeed` (rqdata_datafeed.py lines 123-444).
Provider calls (`rqdatac.init` + `all_instruments`, `get_price`,
`get_dominant_price`) are passed in as explicit parameters returning
`Except`: `.error` models a raised Python exception.  Timestamps are naive
seconds (`Int`); numeric price cells are carried as `Int` — the float
rounding (`round_to(x, 0.000001)`) and the NaN-to-zero fill are
numeric-representation details no claim touches, so a row's cells are
already concrete numbers here. -/

def CHINA_TZ : String := "Asia/Shanghai"

/-- A timezone-aware timestamp: `naive` seconds plus an attached tzinfo,
as produced by `dt.replace(tzinfo=CHINA_TZ)`. -/
structure ZonedDateTime where
  naive : Int
  tz : Option String
  deriving DecidableEq, Repr

/-- The messages sent through the `output` callable, one constructor per
distinct `output(...)` call site in the datafeed. -/
inductive OutputMsg
  | initFailedEmptyUsername
  | initFailedEmptyPassword
  | initFailed (msg : String)
  | unsupportedSymbol (vt_symbol : String)
  | unsupportedInterval (value : String)
  deriving DecidableEq, Repr

structure DFState where
  username : String
  password : String
  inited : Bool
  symbols : List String
  deriving DecidableEq, Repr

/-- `RqdataDatafeed.init` (lines 134-170).  `providerInit` is the combined
outcome of `rqdatac.init(...)` and `all_instruments()["order_book_id"]`:
`.error msg` models any exception caught by the three handlers at lines
159-167, `.ok syms` the fetched symbol catalog.  Returns (new state,
boolean result, output messages). -/
def dfInit (st : DFState) (providerInit : Except String (List String)) :
    DFState × Bool × List OutputMsg :=
  if st.inited then (st, true, [])
  else if st.username = "" then (st, false, [.initFailedEmptyUsername])
  else if st.password = "" then (st, false, [.initFailedEmptyPassword])
  else
    match providerInit with
    | .error e => (st, false, [.initFailed e])
    | .ok syms => ({ st with inited := true, symbols := syms }, true, [])

/-- The lazy-init prologue shared by the query methods (lines 182-185,
260-263 and 380-383): run `init` when not yet inited; a false result makes
the query return an empty list. -/
def lazyInit (st : DFState) (providerInit : Except String (List String)) :
    DFState × Bool × List OutputMsg :=
  if st.inited then (st, true, [])
  else dfInit st providerInit

/-- Argument record of one `get_price(...)` call. -/
structure PriceCall where
  rq_symbol : String
  frequency : String
  fields : List String
  startDate : Int
  endDate : Int
  adjust_type : String
  deriving DecidableEq, Repr

/-- Argument record of one `get_dominant_price(...)` call. -/
structure DominantCall where
  rq_symbol : String
  frequency : String
  fields : List String
  startDate : Int
  endDate : Int
  adjust_type : String
  adjust_method : String
  deriving DecidableEq, Repr

/-- One row of the dataframe returned for a bar query.  `dtEnd` is
`row.Index[1]`, the provider's period-end timestamp.  (`open` is a Lean
keyword, hence the `Price` suffixes on the price columns.) -/
structure BarRow where
  dtEnd : Int
  openPrice : Int
  highPrice : Int
  lowPrice : Int
  closePrice : Int
  volume : Int
  total_turnover : Int
  open_interest : Option Int
  deriving DecidableEq, Repr

structure HistoryRequest where
  symbol : String
  exchange : Exchange
  interval : Interval
  startDate : Int
  endDate : Int
  deriving DecidableEq, Repr

def HistoryRequest.vt_symbol (req : HistoryRequest) : String :=
  req.symbol ++ "." ++ req.exchange.value

structure BarData where
  symbol : String
  exchange : Exchange
  interval : Interval
  datetime : ZonedDateTime
  open_price : Int
  high_price : Int
  low_price : Int
  close_price : Int
  volume : Int
  turnover : Int
  open_interest : Int
  gateway_name : String
  deriving DecidableEq, Repr

def INTERVAL_VT2RQ : Interval → Option String
  | .MINUTE => some "1m"
  | .HOUR => some "60m"
  | .DAILY => some "1d"
  | _ => none

/-- `INTERVAL_ADJUSTMENT_MAP` in seconds (lines 25-29): one minute, one
hour, zero for daily.  The source dict has exactly those three keys and is
only read after the interval was found in `INTERVAL_VT2RQ`, so the
catch-all case is unreachable in embedded code paths. -/
def INTERVAL_ADJUSTMENT_MAP : Interval → Int
  | .MINUTE => 60
  | .HOUR => 3600
  | .DAILY => 0
  | _ => 0

/-- Symbol resolution at lines 193-197: SSE and SZSE codes already present
in the catalog (stock options) keep the raw code, everything else goes
through `to_rq_symbol`. -/
def resolve_rq_symbol (st : DFState) (symbol : String) (exchange : Exchange) : String :=
  if exchange ∈ [Exchange.SSE, .SZSE] ∧ symbol ∈ st.symbols then symbol
  else to_rq_symbol symbol exchange st.symbols

/-- Bar record construction at lines 236-252: period-end timestamp minus
the interval adjustment, then the China timezone is attached. -/
def mkBar (symbol : String) (exchange : Exchange) (interval : Interval)
    (adjustment : Int) (r : BarRow) : BarData :=
  { symbol := symbol
    exchange := exchange
    interval := interval
    datetime := { naive := r.dtEnd - adjustment, tz := some CHINA_TZ }
    open_price := r.openPrice
    high_price := r.highPrice
    low_price := r.lowPrice
    close_price := r.closePrice
    volume := r.volume
    turnover := r.total_turnover
    open_interest := r.open_interest.getD 0
    gateway_name := "RQ" }

/-- `RqdataDatafeed._query_bar_history` (lines 180-256).  The `.error`
branch of `getPrice` has no handler in the source: the fault propagates out
of the method. -/
def query_bar_history_direct (st : DFState) (req : HistoryRequest)
    (providerInit : Except String (List String))
    (getPrice : PriceCall → Except String (Option (List BarRow))) :
    Except String (DFState × List BarData × List OutputMsg) :=
  let r := lazyInit st providerInit
  let st := r.1
  if !r.2.1 then .ok (st, [], r.2.2)
  else
    let logs := r.2.2
    let rq_symbol := resolve_rq_symbol st req.symbol req.exchange
    if rq_symbol ∉ st.symbols then
      .ok (st, [], logs ++ [.unsupportedSymbol req.vt_symbol])
    else
      match INTERVAL_VT2RQ req.interval with
      | none => .ok (st, [], logs ++ [.unsupportedInterval req.interval.value])
      | some rq_interval =>
        let adjustment := INTERVAL_ADJUSTMENT_MAP req.interval
        let endDate := req.endDate + 86400
        let fields := ["open", "high", "low", "close", "volume", "total_turnover"]
          ++ (if !pyIsDigit req.symbol then ["open_interest"] else [])
        match getPrice { rq_symbol := rq_symbol, frequency := rq_interval,
                         fields := fields, startDate := req.startDate,
                         endDate := endDate, adjust_type := "none" } with
        | .error e => .error e
        | .ok none => .ok (st, [], logs)
        | .ok (some rows) =>
          .ok (st, rows.map (mkBar req.symbol req.exchange req.interval adjustment), logs)

/-- `RqdataDatafeed._query_dominant_history` (lines 378-444): provider
symbol is the upper-cased raw code, adjust type "pre" with method
"prev_close_ratio"; same interval mapping, adjustment and row handling as
the direct query, no catalog validation. -/
def query_dominant_history (st : DFState) (req : HistoryRequest)
    (providerInit : Except String (List String))
    (getDominantPrice : DominantCall → Except String (Option (List BarRow))) :
    Except String (DFState × List BarData × List OutputMsg) :=
  let r := lazyInit st providerInit
  let st := r.1
  if !r.2.1 then .ok (st, [], r.2.2)
  else
    let logs := r.2.2
    match INTERVAL_VT2RQ req.interval with
    | none => .ok (st, [], logs ++ [.unsupportedInterval req.interval.value])
    | some rq_interval =>
      let adjustment := INTERVAL_ADJUSTMENT_MAP req.interval
      let endDate := req.endDate + 86400
      let fields := ["open", "high", "low", "close", "volume", "total_turnover"]
        ++ (if !pyIsDigit req.symbol then ["open_interest"] else [])
      match getDominantPrice { rq_symbol := pyUpper req.symbol, frequency := rq_interval,
                               fields := fields, startDate := req.startDate,
                               endDate := endDate, adjust_type := "pre",
                               adjust_method := "prev_close_ratio" } with
      | .error e => .error e
      | .ok none => .ok (st, [], logs)
      | .ok (some rows) =>
        .ok (st, rows.map (mkBar req.symbol req.exchange req.interval adjustment), logs)

/-- One row of the dataframe returned for a tick query; `dt` is
`row.Index[1]`, used without any adjustment. -/
structure TickRow where
  dt : Int
  openPrice : Int
  highPrice : Int
  lowPrice : Int
  lastPrice : Int
  prev_close : Int
  volume : Int
  total_turnover : Int
  limit_up : Int
  limit_down : Int
  b1 : Int
  b2 : Int
  b3 : Int
  b4 : Int
  b5 : Int
  a1 : Int
  a2 : Int
  a3 : Int
  a4 : Int
  a5 : Int
  b1_v : Int
  b2_v : Int
  b3_v : Int
  b4_v : Int
  b5_v : Int
  a1_v : Int
  a2_v : Int
  a3_v : Int
  a4_v : Int
  a5_v : Int
  open_interest : Option Int

structure TickData where
  symbol : String
  exchange : Exchange
  name : String
  datetime : ZonedDateTime
  open_price : Int
  high_price : Int
  low_price : Int
  pre_close : Int
  last_price : Int
  volume : Int
  turnover : Int
  open_interest : Int
  limit_up : Int
  limit_down : Int
  bid_price_1 : Int
  bid_price_2 : Int
  bid_price_3 : Int
  bid_price_4 : Int
  bid_price_5 : Int
  ask_price_1 : Int
  ask_price_2 : Int
  ask_price_3 : Int
  ask_price_4 : Int
  ask_price_5 : Int
  bid_volume_1 : Int
  bid_volume_2 : Int
  bid_volume_3 : Int
  bid_volume_4 : Int
  bid_volume_5 : Int
  ask_volume_1 : Int
  ask_volume_2 : Int
  ask_volume_3 : Int
  ask_volume_4 : Int
  ask_volume_5 : Int
  gateway_name : String

/-- Tick record construction at lines 333-372: the row timestamp is used
unchanged, only the China timezone is attached. -/
def mkTick (symbol : String) (exchange : Exchange) (r : TickRow) : TickData :=
  { symbol := symbol
    exchange := exchange
    name := ""
    datetime := { naive := r.dt, tz := some CHINA_TZ }
    open_price := r.openPrice
    high_price := r.highPrice
    low_price := r.lowPrice
    pre_close := r.prev_close
    last_price := r.lastPrice
    volume := r.volume
    turnover := r.total_turnover
    open_interest := r.open_interest.getD 0
    limit_up := r.limit_up
    limit_down := r.limit_down
    bid_price_1 := r.b1
    bid_price_2 := r.b2
    bid_price_3 := r.b3
    bid_price_4 := r.b4
    bid_price_5 := r.b5
    ask_price_1 := r.a1
    ask_price_2 := r.a2
    ask_price_3 := r.a3
    ask_price_4 := r.a4
    ask_price_5 := r.a5
    bid_volume_1 := r.b1_v
    bid_volume_2 := r.b2_v
    bid_volume_3 := r.b3_v
    bid_volume_4 := r.b4_v
    bid_volume_5 := r.b5_v
    ask_volume_1 := r.a1_v
    ask_volume_2 := r.a2_v
    ask_volume_3 := r.a3_v
    ask_volume_4 := r.a4_v
    ask_volume_5 := r.a5_v
    gateway_name := "RQ" }

/-- The tick field list of lines 284-316. -/
def tickQueryFields (symbol : String) : List String :=
  ["open", "high", "low", "last", "prev_close", "volume", "total_turnover",
   "limit_up", "limit_down",
   "b1", "b2", "b3", "b4", "b5", "a1", "a2", "a3", "a4", "a5",
   "b1_v", "b2_v", "b3_v", "b4_v", "b5_v", "a1_v", "a2_v", "a3_v", "a4_v", "a5_v"]
  ++ (if !pyIsDigit symbol then ["open_interest"] else [])

/-- `RqdataDatafeed.query_tick_history` (lines 258-376).  Like the direct
bar query: lazy init, symbol resolution and catalog check, end boundary
extended one day, frequency fixed to "tick"; the `getPrice` fault again has
no handler in the source. -/
def query_tick_history (st : DFState) (req : HistoryRequest)
    (providerInit : Except String (List String))
    (getPrice : PriceCall → Except String (Option (List TickRow))) :
    Except String (DFState × List TickData × List OutputMsg) :=
  let r := lazyInit st providerInit
  let st := r.1
  if !r.2.1 then .ok (st, [], r.2.2)
  else
    let logs := r.2.2
    let rq_symbol := resolve_rq_symbol st req.symbol req.exchange
    if rq_symbol ∉ st.symbols then
      .ok (st, [], logs ++ [.unsupportedSymbol req.vt_symbol])
    else
      let endDate := req.endDate + 86400
      match getPrice { rq_symbol := rq_symbol, frequency := "tick",
                       fields := tickQueryFields req.symbol,
                       startDate := req.startDate, endDate := endDate,
                       adjust_type := "none" } with
      | .error e => .error e
      | .ok none => .ok (st, [], logs)
      | .ok (some rows) =>
        .ok (st, rows.map (mkTick req.symbol req.exchange), logs)

/-- `RqdataDatafeed.query_bar_history` (lines 172-178): route to the
dominant-contract query for derivatives-exchange requests whose code is
purely alphabetic, otherwise to the direct query. -/
def query_bar_history (st : DFState) (req : HistoryRequest)
    (providerInit : Except String (List String))
    (getPrice : PriceCall → Except String (Option (List BarRow)))
    (getDominantPrice : DominantCall → Except String (Option (List BarRow))) :
    Except String (DFState × List BarData × List OutputMsg) :=
  if req.exchange ∈ FUTURES_EXCHANGES ∧ pyIsAlpha req.symbol then
    query_dominant_history st req providerInit getDominantPrice
  else
    query_bar_history_direct st req providerInit getPrice

/-! ## Live gateway (`RqdataGateway`, rqdata_gateway.py)

The gateway's methods become state-passing functions.  Python exceptions
(AttributeError, KeyError, NameError, ValueError, IndexError) surface as
`Except.error`.  Provider calls (`rqdatac.init`, `all_instruments(type=t)`)
are parameters. -/

inductive Product
  | EQUITY | INDEX | FUND | FUTURES | OPTION | BOND
  deriving DecidableEq, Repr

/-- `EXCHANGE_VT2RQDATA` (lines 28-37). -/
def EXCHANGE_VT2RQDATA : Exchange → Option String
  | .SSE => some "XSHG"
  | .SZSE => some "XSHE"
  | .CFFEX => some "CFFEX"
  | .SHFE => some "SHFE"
  | .DCE => some "DCE"
  | .CZCE => some "CZCE"
  | .INE => some "INE"
  | .GFEX => some "GFEX"
  | _ => none

/-- `EXCHANGE_RQDATA2VT` (line 38), the inverted dictionary. -/
def EXCHANGE_RQDATA2VT (s : String) : Option Exchange :=
  if s = "XSHG" then some .SSE
  else if s = "XSHE" then some .SZSE
  else if s = "CFFEX" then some .CFFEX
  else if s = "SHFE" then some .SHFE
  else if s = "DCE" then some .DCE
  else if s = "CZCE" then some .CZCE
  else if s = "INE" then some .INE
  else if s = "GFEX" then some .GFEX
  else none

/-- `PRODUCT_MAP` (lines 41-51); `none` models a key absent from the dict,
so that `PRODUCT_MAP[tp.type]` on it raises KeyError. -/
def PRODUCT_MAP (t : String) : Option Product :=
  if t = "CS" then some .EQUITY
  else if t = "INDX" then some .INDEX
  else if t = "ETF" then some .FUND
  else if t = "LOF" then some .FUND
  else if t = "FUND" then some .FUND
  else if t = "Future" then some .FUTURES
  else if t = "Option" then some .OPTION
  else if t = "Convertible" then some .BOND
  else if t = "Repo" then some .BOND
  else none

/-- One row of `all_instruments(type=t)`. -/
structure InstRow where
  order_book_id : String
  trading_code : String
  exchange : String
  symbol : String
  type : String
  round_lot : Int
  contract_multiplier : Int
  deriving DecidableEq, Repr

structure ContractData where
  symbol : String
  exchange : Exchange
  name : String
  product : Product
  size : Int
  pricetick : ℚ
  min_volume : Int
  gateway_name : String
  deriving DecidableEq, Repr

inductive GatewayLog
  | initFailed (msg : String)
  | contractCategoryDone (product_name : String)
  | connectOk
  | unknownInstrument (order_book_id : String)
  deriving DecidableEq, Repr

/-- The function-scoped local variables of `query_contract` that the loop
body assigns conditionally, plus the accumulated effects.  In Python these
locals persist across loop iterations (and across the outer category
loop); `none` models a name that has not been bound yet, so reading it
raises NameError. -/
structure QCEnv where
  size : Option Int
  pricetick : Option ℚ
  product_name : Option String
  contracts : List ContractData
  symbol_map : List (String × ContractData)
  logs : List GatewayLog
  deriving DecidableEq, Repr

def QCEnv.empty : QCEnv :=
  { size := none, pricetick := none, product_name := none,
    contracts := [], symbol_map := [], logs := [] }

/-- Lines 154-159: symbol and exchange resolution for one row.  For the
"INDX" category the order-book id is split on "."; the tuple unpacking
`symbol, rq_exchange = ...` raises ValueError unless the split yields
exactly two parts. -/
def resolve_row (t : String) (row : InstRow) : Except String (String × Option Exchange) :=
  if t = "INDX" then
    match splitOnChar '.' row.order_book_id.toList with
    | [sym, rq_ex] => .ok (sym.asString, EXCHANGE_RQDATA2VT rq_ex.asString)
    | _ => .error "ValueError"
  else .ok (row.trading_code, EXCHANGE_RQDATA2VT row.exchange)

/-- The body of the inner loop of `query_contract` (lines 153-196) for one
row.  The if/elif chain at lines 167-182 assigns `size`, `pricetick` and
`product_name` only for the equity, fund, index and futures products; any
other product leaves the previous iteration's bindings in place, and the
`ContractData(...)` construction then reads the stale `size`/`pricetick`
(or raises NameError when they were never bound). -/
def process_row (gateway_name : String) (t : String) (env : QCEnv) (row : InstRow) :
    Except String QCEnv := do
  let r ← resolve_row t row
  match r.2 with
  | none => pure env
  | some exchange =>
    let min_volume := row.round_lot
    match PRODUCT_MAP row.type with
    | none => .error "KeyError"
    | some product =>
      let env :=
        if product = .EQUITY then
          { env with size := some 1, pricetick := some (1/100), product_name := some "股票" }
        else if product = .FUND then
          { env with size := some 1, pricetick := some (1/1000), product_name := some "基金" }
        else if product = .INDEX then
          { env with size := some 1, pricetick := some (1/100), product_name := some "指数" }
        else if product = .FUTURES then
          { env with size := some row.contract_multiplier, pricetick := some (1/100),
                     product_name := some "期货" }
        else env
      match env.size, env.pricetick with
      | some size, some pricetick =>
        let contract : ContractData :=
          { symbol := r.1, exchange := exchange, name := row.symbol, product := product,
            size := size, pricetick := pricetick, min_volume := min_volume,
            gateway_name := gateway_name }
        pure { env with contracts := env.contracts ++ [contract],
                        symbol_map := env.symbol_map ++ [(row.order_book_id, contract)] }
      | _, _ => .error "NameError"

def process_rows (gateway_name : String) (t : String) :
    QCEnv → List InstRow → Except String QCEnv
  | env, [] => pure env
  | env, row :: rest => do
    let env ← process_row gateway_name t env row
    process_rows gateway_name t env rest

/-- One iteration of the outer category loop: process the category's rows,
then `self.write_log(f"...")` at line 198 reads `product_name` — NameError
when it was never assigned during any preceding iteration. -/
def process_category (gateway_name : String) (env : QCEnv) (t : String)
    (rows : List InstRow) : Except String QCEnv := do
  let env ← process_rows gateway_name t env rows
  match env.product_name with
  | some n => pure { env with logs := env.logs ++ [.contractCategoryDone n] }
  | none => .error "NameError"

/-- `RqdataGateway.query_contract` (lines 148-198); `rowsOf t` is the
dataframe returned by `all_instruments(type=t)`. -/
def query_contract (gateway_name : String) (rowsOf : String → List InstRow) :
    Except String QCEnv :=
  ["CS", "INDX", "ETF", "Future"].foldlM
    (fun env t => process_category gateway_name env t (rowsOf t)) QCEnv.empty

/-! ### connect / subscribe (lines 78-124) -/

/-- The provider's streaming client.  `subscribedChannels` records, in call
order, every channel a `client.subscribe(...)` call was issued for. -/
structure LiveClient where
  transportOpen : Bool
  subscribedChannels : List String
  deriving DecidableEq, Repr

structure GatewayState where
  client : Option LiveClient
  threadRunning : Bool
  subscribed : List String
  futures_map : List (String × String × Exchange)
  deriving DecidableEq, Repr

/-- Fields set by `RqdataGateway.__init__` (lines 68-76).  The Python
`subscribed` set is modelled as an insertion-ordered duplicate-free list. -/
def initialGatewayState : GatewayState :=
  { client := none, threadRunning := false, subscribed := [], futures_map := [] }

def setAdd (s : List String) (x : String) : List String :=
  if x ∈ s then s else s ++ [x]

/-- `RqdataGateway.subscribe` (lines 108-124): derive the channel id
(equities get the venue-suffixed form, everything else the upper-cased
code with a futures-map entry), add it to the subscription set, and issue
the subscribe call to the live client only when one exists. -/
def rq_subscribe (st : GatewayState) (symbol : String) (exchange : Exchange) : GatewayState :=
  let rq_channel :=
    if exchange ∈ [Exchange.SSE, .SZSE] then
      "tick_" ++ symbol ++ "." ++ ((EXCHANGE_VT2RQDATA exchange).getD "")
    else "tick_" ++ pyUpper symbol
  let st :=
    if exchange ∈ [Exchange.SSE, .SZSE] then st
    else { st with futures_map := (pyUpper symbol, symbol, exchange) :: st.futures_map }
  let st := { st with subscribed := setAdd st.subscribed rq_channel }
  match st.client with
  | none => st
  | some c =>
    { st with client := some { c with subscribedChannels := c.subscribedChannels ++ [rq_channel] } }

/-- `RqdataGateway.connect` (lines 78-106).  `initResult` is the outcome of
`rqdatac.init(username, password)`; its exception is caught at lines 89-91
and turns into a logged normal return.  A `query_contract` fault is not
caught and propagates.  The replay loop at lines 103-104 reads

    for rq_channel in self.subscribed:
        self.clicent.subscrbie(rq_channel)

and `clicent` is not an attribute of the gateway object, so the first
iteration raises AttributeError: with a non-empty subscription set the
method aborts after creating the client, which therefore receives no
subscribe call.  (Log messages already emitted before a propagating fault
are not tracked on the error branches.)  Returns (state after execution,
normal/raised outcome, logs). -/
def rq_connect (st : GatewayState) (initResult : Except String Unit)
    (rowsOf : String → List InstRow) :
    GatewayState × Except String Unit × List GatewayLog :=
  if st.client.isSome then (st, .ok (), [])
  else
    match initResult with
    | .error e => (st, .ok (), [.initFailed e])
    | .ok _ =>
      match query_contract "RQDATA" rowsOf with
      | .error e => (st, .error e, [])
      | .ok env =>
        let st := { st with client := some { transportOpen := true, subscribedChannels := [] },
                            threadRunning := true }
        match st.subscribed with
        | [] => (st, .ok (), env.logs ++ [.connectOk])
        | _ :: _ => (st, .error "AttributeError", env.logs)

/-! ### close (lines 142-146)

`close` interacts with the threading collaborator, modelled operationally:
the listening thread holds a queue of push messages not yet delivered to
`handle_msg`, and `Thread.join` returns only once the thread has delivered
its remaining messages and terminated. -/

structure ListenThread where
  alive : Bool
  pending : List Nat
  deriving DecidableEq, Repr

structure CloseSys where
  client : Option LiveClient
  thread : ListenThread
  deriving DecidableEq, Repr

inductive CloseEvent
  | transportClosed
  | handlerInvoked (msg : Nat)
  deriving DecidableEq, Repr

/-- `self.thread.join()`: the calling thread blocks; the listening thread
delivers its still-pending messages (each a handler invocation happening
before `join` returns) and terminates. -/
def thread_join (t : ListenThread) : ListenThread × List CloseEvent :=
  ({ alive := false, pending := [] }, t.pending.map CloseEvent.handlerInvoked)

/-- A handler invocation is possible only while the listening thread is
alive with a message left to deliver. -/
def canInvokeHandler (s : CloseSys) : Bool :=
  s.thread.alive && !s.thread.pending.isEmpty

/-- `RqdataGateway.close` (lines 142-146): when a client exists, close the
transport, then join the listening thread; otherwise do nothing.  Returns
the post state and the ordered events observable during the call. -/
def rq_close (s : CloseSys) : CloseSys × List CloseEvent :=
  match s.client with
  | none => (s, [])
  | some c =>
    let closed : LiveClient := { c with transportOpen := false }
    let j := thread_join s.thread
    ({ client := some closed, thread := j.1 }, CloseEvent.transportClosed :: j.2)

/-! ### handle_msg (lines 200-257) -/

/-- The push message dictionary.  `dt` stands for the already-parsed value
of `data["datetime"]` (the packed-string parse is not the subject of any
claim).  `Option` fields model keys that the handler reads through
`data.get(..., 0)` or guards with membership tests; the four depth arrays
are read unguarded once "bid" is present, so an absent one raises
KeyError. -/
structure PushData where
  order_book_id : String
  dt : Int
  volume : Int
  total_turnover : Int
  open_interest : Option Int
  lastPrice : Int
  limit_up : Option Int
  limit_down : Option Int
  openPrice : Int
  highPrice : Int
  lowPrice : Int
  prev_close : Int
  bid : Option (List Int)
  ask : Option (List Int)
  bid_vol : Option (List Int)
  ask_vol : Option (List Int)

/-- Positional indexing `l[i]`: IndexError past the end. -/
def indexList (l : List Int) (i : Nat) : Except String Int :=
  match l.get? i with
  | some v => .ok v
  | none => .error "IndexError"

/-- Reading a required dictionary key: KeyError when absent. -/
def requireKey (v : Option (List Int)) : Except String (List Int) :=
  match v with
  | some l => .ok l
  | none => .error "KeyError"

inductive HandleResult
  | dropped
  | emitted (tick : TickData)

def lookupContract : List (String × ContractData) → String → Option ContractData
  | [], _ => none
  | (k, v) :: rest, key => if k = key then some v else lookupContract rest key

/-- `RqdataGateway.handle_msg` (lines 200-257): resolve the instrument via
`symbol_map` (unknown ids are logged and dropped), build the tick, and when
the message carries a "bid" key populate all five bid/ask price and volume
levels positionally from elements 0 through 4 of the four depth arrays. -/
def handle_msg (gateway_name : String) (symbol_map : List (String × ContractData))
    (data : PushData) : Except String HandleResult :=
  match lookupContract symbol_map data.order_book_id with
  | none => .ok .dropped
  | some contract =>
    let tick : TickData :=
      { symbol := contract.symbol
        exchange := contract.exchange
        name := contract.name
        datetime := { naive := data.dt, tz := some CHINA_TZ }
        volume := data.volume
        turnover := data.total_turnover
        open_interest := data.open_interest.getD 0
        last_price := data.lastPrice
        limit_up := data.limit_up.getD 0
        limit_down := data.limit_down.getD 0
        open_price := data.openPrice
        high_price := data.highPrice
        low_price := data.lowPrice
        pre_close := data.prev_close
        bid_price_1 := 0
        bid_price_2 := 0
        bid_price_3 := 0
        bid_price_4 := 0
        bid_price_5 := 0
        ask_price_1 := 0
        ask_price_2 := 0
        ask_price_3 := 0
        ask_price_4 := 0
        ask_price_5 := 0
        bid_volume_1 := 0
        bid_volume_2 := 0
        bid_volume_3 := 0
        bid_volume_4 := 0
        bid_volume_5 := 0
        ask_volume_1 := 0
        ask_volume_2 := 0
        ask_volume_3 := 0
        ask_volume_4 := 0
        ask_volume_5 := 0
        gateway_name := gateway_name }
    match data.bid with
    | none => .ok (.emitted tick)
    | some bp => do
      let ap ← requireKey data.ask
      let bv ← requireKey data.bid_vol
      let av ← requireKey data.ask_vol
      let b0 ← indexList bp 0
      let b1 ← indexList bp 1
      let b2 ← indexList bp 2
      let b3 ← indexList bp 3
      let b4 ← indexList bp 4
      let a0 ← indexList ap 0
      let a1 ← indexList ap 1
      let a2 ← indexList ap 2
      let a3 ← indexList ap 3
      let a4 ← indexList ap 4
      let v0 ← indexList bv 0
      let v1 ← indexList bv 1
      let v2 ← indexList bv 2
      let v3 ← indexList bv 3
      let v4 ← indexList bv 4
      let w0 ← indexList av 0
      let w1 ← indexList av 1
      let w2 ← indexList av 2
      let w3 ← indexList av 3
      let w4 ← indexList av 4
      .ok (.emitted { tick with
        bid_price_1 := b0, bid_price_2 := b1, bid_price_3 := b2,
        bid_price_4 := b3, bid_price_5 := b4,
        ask_price_1 := a0, ask_price_2 := a1, ask_price_3 := a2,
        ask_price_4 := a3, ask_price_5 := a4,
        bid_volume_1 := v0, bid_volume_2 := v1, bid_volume_3 := v2,
        bid_volume_4 := v3, bid_volume_5 := v4,
        ask_volume_1 := w0, ask_volume_2 := w1, ask_volume_3 := w2,
        ask_volume_4 := w3, ask_volume_5 := w4 })

/-! ## Claims -/

/-- C1: for every CZCE symbol whose time suffix (the part from the first
digit onward) is purely numeric and not a literal continuous/index code,
and likewise for every CZCE option code whose suffix is non-numeric,
`to_rq_symbol` builds the two upper-cased guesses product+"1"+year+month
and product+"2"+year+month (year the first character of the suffix, month
the rest) and returns the "2"-prefixed guess exactly when it is a member
of the supplied known-symbols list, otherwise the "1"-prefixed guess. -/
theorem czce_two_guess_preference (symbol : String) (all_symbols : List String)
    (product time_str : String)
    (hsplit : splitAtFirstDigit symbol = (product, time_str))
    (hcase : (pyIsDigit time_str = true ∧ time_str ∉ czceLiteralCodes) ∨
             pyIsDigit time_str = false) :
    to_rq_symbol symbol .CZCE all_symbols =
      (if pyUpper (product ++ "2" ++ time_str.take 1 ++ time_str.drop 1) ∈ all_symbols
       then pyUpper (product ++ "2" ++ time_str.take 1 ++ time_str.drop 1)
       else pyUpper (product ++ "1" ++ time_str.take 1 ++ time_str.drop 1)) := by
  unfold to_rq_symbol
  rw [hsplit]
  rcases hcase with ⟨hd, hmem⟩ | hd
  · simp [hd, hmem]
  · simp [hd]

/-- Witness for C1: concrete CZCE futures code with and without the
"2"-prefixed guess in the known-symbols list. -/
theorem czce_two_guess_preference_witness :
    to_rq_symbol "AP905" .CZCE ["AP2905"] = "AP2905" := by
  rw [czce_two_guess_preference "AP905" ["AP2905"] "AP" "905" (by decide)
    (Or.inl ⟨by decide, by decide⟩)]
  decide

/-- C2 counterexample: "88A2" is in the literal continuous-code list, but a
CZCE symbol with that suffix is NOT returned unchanged: the suffix fails
`str.isdigit`, so the code takes the option branch and century-guesses. -/
theorem czce_literal_passthrough_counterexample :
    (splitAtFirstDigit "AP88A2").2 = "88A2" ∧
    "88A2" ∈ czceLiteralCodes ∧
    to_rq_symbol "AP88A2" .CZCE [] ≠ "AP88A2" := by decide

/-- C2 (amended): for every CZCE symbol whose time suffix is one of the
purely numeric literals "88", "888", "99", "889", `to_rq_symbol` returns
the symbol unchanged regardless of the known-symbols list ("88A2" in the
source's literal list is unreachable: a suffix containing "A" fails the
`isdigit` guard first). -/
theorem czce_literal_passthrough (symbol : String) (all_symbols : List String)
    (product time_str : String)
    (hsplit : splitAtFirstDigit symbol = (product, time_str))
    (hmem : time_str ∈ ["88", "888", "99", "889"]) :
    to_rq_symbol symbol .CZCE all_symbols = symbol := by
  unfold to_rq_symbol
  rw [hsplit]
  fin_cases hmem <;>
    simp [show pyIsDigit "88" = true by decide,
      show pyIsDigit "888" = true by decide,
      show pyIsDigit "99" = true by decide,
      show pyIsDigit "889" = true by decide,
      show ("88" : String) ∈ czceLiteralCodes by decide,
      show ("888" : String) ∈ czceLiteralCodes by decide,
      show ("99" : String) ∈ czceLiteralCodes by decide,
      show ("889" : String) ∈ czceLiteralCodes by decide]

/-- Witness for C2: a lower-case continuous code passes through without
upper-casing even though an upper-cased dated guess is in the known set. -/
theorem czce_literal_passthrough_witness :
    to_rq_symbol "ap888" .CZCE ["AP2888"] = "ap888" :=
  czce_literal_passthrough "ap888" ["AP2888"] "ap" "888" (by decide) (by decide)

/-- C3 (code bug): subscribing to a futures code while disconnected adds
one channel to the subscription set, but connecting afterwards does NOT
deliver the deferred subscribe call: the replay loop at line 104 reads the
misspelled attributes `clicent`/`subscrbie`, so its first iteration raises
AttributeError.  Connect aborts after creating the live client, which has
received zero subscribe calls instead of the expected one. -/
theorem connect_replay_attribute_error :
    (rq_subscribe initialGatewayState "rb2410" .SHFE).subscribed = ["tick_RB2410"] ∧
    (rq_connect (rq_subscribe initialGatewayState "rb2410" .SHFE) (.ok ())
        (fun t => if t = "CS" then
          [{ order_book_id := "600000.XSHG", trading_code := "600000",
             exchange := "XSHG", symbol := "浦发银行", type := "CS",
             round_lot := 100, contract_multiplier := 1 }] else [])).2.1 =
      .error "AttributeError" ∧
    ((rq_connect (rq_subscribe initialGatewayState "rb2410" .SHFE) (.ok ())
        (fun t => if t = "CS" then
          [{ order_book_id := "600000.XSHG", trading_code := "600000",
             exchange := "XSHG", symbol := "浦发银行", type := "CS",
             round_lot := 100, contract_multiplier := 1 }] else [])).1.client.map
      LiveClient.subscribedChannels) = some [] :=
  ⟨by decide, rfl, rfl⟩

/-- C8: when a client exists, `close` closes its transport and then joins
the listening thread, so after `close` returns the thread is terminated,
its queue is drained (every handler invocation happened during the call,
after the transport close), and no further handler invocation is possible;
when no client exists, `close` does nothing. -/
theorem close_joins_listening_thread (s : CloseSys) :
    (s.client.isSome = true →
      (rq_close s).1.thread.alive = false ∧
      canInvokeHandler (rq_close s).1 = false ∧
      (rq_close s).1.client.map LiveClient.transportOpen = some false ∧
      (rq_close s).2 =
        CloseEvent.transportClosed :: s.thread.pending.map CloseEvent.handlerInvoked) ∧
    (s.client = none → rq_close s = (s, [])) := by
  obtain ⟨cl, th⟩ := s
  cases cl with
  | none => simp [rq_close]
  | some c => simp [rq_close, thread_join, canInvokeHandler]

/-- Witness for C8: a connected system with two queued messages. -/
theorem close_joins_listening_thread_witness :
    canInvokeHandler (rq_close
      { client := some { transportOpen := true, subscribedChannels := [] },
        thread := { alive := true, pending := [7, 8] } }).1 = false ∧
    (rq_close
      { client := some { transportOpen := true, subscribedChannels := [] },
        thread := { alive := true, pending := [7, 8] } }).2 =
      [CloseEvent.transportClosed, .handlerInvoked 7, .handlerInvoked 8] := by
  have h := (close_joins_listening_thread
    { client := some { transportOpen := true, subscribedChannels := [] },
      thread := { alive := true, pending := [7, 8] } }).1 (by decide)
  exact ⟨h.2.1, by rw [h.2.2.2]; decide⟩

/-- Helper: an already-inited datafeed skips the lazy init. -/
theorem lazyInit_inited (st : DFState) (p : Except String (List String))
    (h : st.inited = true) : lazyInit st p = (st, true, []) := by
  simp [lazyInit, h]

/-- Helper: with credentials present, a provider fault during init is
caught and logged, and init reports failure. -/
theorem lazyInit_error (st : DFState) (e : String) (h1 : st.inited = false)
    (h2 : st.username ≠ "") (h3 : st.password ≠ "") :
    lazyInit st (.error e) = (st, false, [.initFailed e]) := by
  simp [lazyInit, dfInit, h1, h2, h3]

/-- C4 counterexample: with an inited datafeed, a known symbol and a
supported interval, a provider fault raised by the historical price fetch
itself is NOT caught: it propagates out of `query_bar_history`. -/
theorem provider_fault_propagates_counterexample :
    query_bar_history
      { username := "u", password := "p", inited := true, symbols := ["600000.XSHG"] }
      { symbol := "600000", exchange := .SSE, interval := .DAILY,
        startDate := 0, endDate := 0 }
      (.ok []) (fun _ => .error "RQDataError") (fun _ => .ok none) =
      .error "RQDataError" := rfl

/-- C4 (amended): provider faults during the lazy initialisation (auth and
catalog fetch) are caught, logged and downgraded to an empty result, for
bar and tick queries alike; but the price fetch itself (`get_price`,
`get_dominant_price`) is not wrapped, so a provider fault raised there
propagates uncaught out of `query_bar_history` / `query_tick_history`. -/
theorem provider_fault_handling (st : DFState) (req : HistoryRequest) (e : String)
    (gp : PriceCall → Except String (Option (List BarRow)))
    (gpt : PriceCall → Except String (Option (List TickRow)))
    (gdp : DominantCall → Except String (Option (List BarRow))) :
    (st.inited = false → st.username ≠ "" → st.password ≠ "" →
      query_bar_history st req (.error e) gp gdp = .ok (st, [], [.initFailed e])) ∧
    (st.inited = false → st.username ≠ "" → st.password ≠ "" →
      query_tick_history st req (.error e) gpt = .ok (st, [], [.initFailed e])) ∧
    (st.inited = true →
      ¬(req.exchange ∈ FUTURES_EXCHANGES ∧ pyIsAlpha req.symbol = true) →
      resolve_rq_symbol st req.symbol req.exchange ∈ st.symbols →
      (INTERVAL_VT2RQ req.interval).isSome = true →
      (∀ c, gp c = .error e) →
      query_bar_history st req (.ok []) gp gdp = .error e) ∧
    (st.inited = true →
      req.exchange ∈ FUTURES_EXCHANGES ∧ pyIsAlpha req.symbol = true →
      (INTERVAL_VT2RQ req.interval).isSome = true →
      (∀ c, gdp c = .error e) →
      query_bar_history st req (.ok []) gp gdp = .error e) ∧
    (st.inited = true →
      resolve_rq_symbol st req.symbol req.exchange ∈ st.symbols →
      (∀ c, gpt c = .error e) →
      query_tick_history st req (.ok []) gpt = .error e) := by
  refine ⟨?_, ?_, ?_, ?_, ?_⟩
  · intro h1 h2 h3
    by_cases hroute : req.exchange ∈ FUTURES_EXCHANGES ∧ pyIsAlpha req.symbol = true
    · simp [query_bar_history, query_dominant_history, hroute,
        lazyInit_error st e h1 h2 h3]
    · simp [query_bar_history, query_bar_history_direct, hroute,
        lazyInit_error st e h1 h2 h3]
  · intro h1 h2 h3
    simp [query_tick_history, lazyInit_error st e h1 h2 h3]
  · intro hin hroute hsym hint hgp
    obtain ⟨f, hf⟩ := Option.isSome_iff_exists.mp hint
    simp [query_bar_history, query_bar_history_direct, hroute,
      lazyInit_inited st _ hin, hsym, hf, hgp]
  · intro hin hroute hint hgdp
    obtain ⟨f, hf⟩ := Option.isSome_iff_exists.mp hint
    simp [query_bar_history, query_dominant_history, hroute,
      lazyInit_inited st _ hin, hf, hgdp]
  · intro hin hsym hgpt
    simp [query_tick_history, lazyInit_inited st _ hin, hsym, hgpt]

/-- Witness for C4: concrete init-time fault (caught, empty result) and
concrete price-fetch faults (propagated) on each query path. -/
theorem provider_fault_handling_witness :
    query_bar_history { username := "u", password := "p", inited := false, symbols := [] }
      { symbol := "600000", exchange := .SSE, interval := .DAILY, startDate := 0, endDate := 0 }
      (.error "AuthFail") (fun _ => .ok none) (fun _ => .ok none) =
      .ok ({ username := "u", password := "p", inited := false, symbols := [] }, [],
           [.initFailed "AuthFail"]) ∧
    query_bar_history { username := "u", password := "p", inited := true, symbols := ["600000.XSHG"] }
      { symbol := "600000", exchange := .SSE, interval := .DAILY, startDate := 0, endDate := 0 }
      (.ok []) (fun _ => .error "Boom") (fun _ => .ok none) = .error "Boom" ∧
    query_bar_history { username := "u", password := "p", inited := true, symbols := [] }
      { symbol := "AG", exchange := .SHFE, interval := .MINUTE, startDate := 0, endDate := 0 }
      (.ok []) (fun _ => .ok none) (fun _ => .error "Boom2") = .error "Boom2" ∧
    query_tick_history { username := "u", password := "p", inited := true, symbols := ["600000.XSHG"] }
      { symbol := "600000", exchange := .SSE, interval := .TICK, startDate := 0, endDate := 0 }
      (.ok []) (fun _ => .error "Boom3") = .error "Boom3" := by
  refine ⟨?_, ?_, ?_, ?_⟩
  · exact (provider_fault_handling _ _ "AuthFail" _ (fun _ => .ok none) _).1 rfl
      (by decide) (by decide)
  · exact (provider_fault_handling _ _ "Boom" _ (fun _ => .ok none) _).2.2.1 rfl
      (by decide) (by decide) (by decide) (fun _ => rfl)
  · exact (provider_fault_handling _ _ "Boom2" _ (fun _ => .ok none) _).2.2.2.1 rfl
      (by decide) (by decide) (fun _ => rfl)
  · exact (provider_fault_handling _ _ "Boom3" (fun _ => .ok none)
      (fun _ => .error "Boom3") (fun _ => .ok none)).2.2.2.2 rfl (by decide) (fun _ => rfl)

/-- C5: every normalized bar record's timestamp is the provider's
period-end timestamp minus the per-interval adjustment (60 s for minute
bars, 3600 s for hour bars, 0 for daily bars) with the China timezone
attached, on both the direct and the dominant-contract path; tick history
records keep the provider timestamp unchanged (timezone attached only). -/
theorem bar_timestamp_normalization (st : DFState) (req : HistoryRequest)
    (rows : List BarRow) (trows : List TickRow)
    (gp : PriceCall → Except String (Option (List BarRow)))
    (gpt : PriceCall → Except String (Option (List TickRow)))
    (gdp : DominantCall → Except String (Option (List BarRow)))
    (hin : st.inited = true) :
    INTERVAL_ADJUSTMENT_MAP .MINUTE = 60 ∧
    INTERVAL_ADJUSTMENT_MAP .HOUR = 3600 ∧
    INTERVAL_ADJUSTMENT_MAP .DAILY = 0 ∧
    (resolve_rq_symbol st req.symbol req.exchange ∈ st.symbols →
      (INTERVAL_VT2RQ req.interval).isSome = true →
      (∀ c, gp c = .ok (some rows)) →
      ∃ bars logs, query_bar_history_direct st req (.ok []) gp = .ok (st, bars, logs) ∧
        bars.map BarData.datetime = rows.map (fun r =>
          { naive := r.dtEnd - INTERVAL_ADJUSTMENT_MAP req.interval, tz := some CHINA_TZ })) ∧
    ((INTERVAL_VT2RQ req.interval).isSome = true →
      (∀ c, gdp c = .ok (some rows)) →
      ∃ bars logs, query_dominant_history st req (.ok []) gdp = .ok (st, bars, logs) ∧
        bars.map BarData.datetime = rows.map (fun r =>
          { naive := r.dtEnd - INTERVAL_ADJUSTMENT_MAP req.interval, tz := some CHINA_TZ })) ∧
    (resolve_rq_symbol st req.symbol req.exchange ∈ st.symbols →
      (∀ c, gpt c = .ok (some trows)) →
      ∃ ticks logs, query_tick_history st req (.ok []) gpt = .ok (st, ticks, logs) ∧
        ticks.map TickData.datetime = trows.map (fun r =>
          { naive := r.dt, tz := some CHINA_TZ })) := by
  refine ⟨rfl, rfl, rfl, ?_, ?_, ?_⟩
  · intro hsym hint hgp
    obtain ⟨f, hf⟩ := Option.isSome_iff_exists.mp hint
    refine ⟨rows.map (mkBar req.symbol req.exchange req.interval
      (INTERVAL_ADJUSTMENT_MAP req.interval)), [], ?_, ?_⟩
    · simp [query_bar_history_direct, lazyInit_inited st _ hin, hsym, hf, hgp]
    · simp [mkBar, Function.comp_def]
  · intro hint hgdp
    obtain ⟨f, hf⟩ := Option.isSome_iff_exists.mp hint
    refine ⟨rows.map (mkBar req.symbol req.exchange req.interval
      (INTERVAL_ADJUSTMENT_MAP req.interval)), [], ?_, ?_⟩
    · simp [query_dominant_history, lazyInit_inited st _ hin, hf, hgdp]
    · simp [mkBar, Function.comp_def]
  · intro hsym hgpt
    refine ⟨trows.map (mkTick req.symbol req.exchange), [], ?_, ?_⟩
    · simp [query_tick_history, lazyInit_inited st _ hin, hsym, hgpt]
    · simp [mkTick, Function.comp_def]

/-- Witness for C5: a minute bar with period-end 09:31:00 (34260 s)
normalizes to 09:30:00 (34200 s) in the China timezone, and a tick with
the same provider timestamp keeps it. -/
theorem bar_timestamp_normalization_witness :
    (∃ bars logs,
      query_bar_history_direct
        { username := "u", password := "p", inited := true, symbols := ["600000.XSHG"] }
        { symbol := "600000", exchange := .SSE, interval := .MINUTE, startDate := 0, endDate := 0 }
        (.ok [])
        (fun _ => .ok (some [{ dtEnd := 34260, openPrice := 1, highPrice := 2, lowPrice := 3,
                               closePrice := 4, volume := 5, total_turnover := 6,
                               open_interest := none }])) =
        .ok ({ username := "u", password := "p", inited := true, symbols := ["600000.XSHG"] },
             bars, logs) ∧
      bars.map BarData.datetime = [{ naive := 34200, tz := some CHINA_TZ }]) ∧
    (∃ ticks logs,
      query_tick_history
        { username := "u", password := "p", inited := true, symbols := ["600000.XSHG"] }
        { symbol := "600000", exchange := .SSE, interval := .TICK, startDate := 0, endDate := 0 }
        (.ok [])
        (fun _ => .ok (some [{ dt := 34260, openPrice := 0, highPrice := 0, lowPrice := 0,
                               lastPrice := 0, prev_close := 0, volume := 0, total_turnover := 0,
                               limit_up := 0, limit_down := 0,
                               b1 := 0, b2 := 0, b3 := 0, b4 := 0, b5 := 0,
                               a1 := 0, a2 := 0, a3 := 0, a4 := 0, a5 := 0,
                               b1_v := 0, b2_v := 0, b3_v := 0, b4_v := 0, b5_v := 0,
                               a1_v := 0, a2_v := 0, a3_v := 0, a4_v := 0, a5_v := 0,
                               open_interest := none }])) =
        .ok ({ username := "u", password := "p", inited := true, symbols := ["600000.XSHG"] },
             ticks, logs) ∧
      ticks.map TickData.datetime = [{ naive := 34260, tz := some CHINA_TZ }]) := by
  constructor
  · obtain ⟨bars, logs, h1, h2⟩ :=
      (bar_timestamp_normalization
        { username := "u", password := "p", inited := true, symbols := ["600000.XSHG"] }
        { symbol := "600000", exchange := .SSE, interval := .MINUTE, startDate := 0, endDate := 0 }
        [{ dtEnd := 34260, openPrice := 1, highPrice := 2, lowPrice := 3, closePrice := 4,
           volume := 5, total_turnover := 6, open_interest := none }] []
        (fun _ => .ok (some [{ dtEnd := 34260, openPrice := 1, highPrice := 2, lowPrice := 3,
                               closePrice := 4, volume := 5, total_turnover := 6,
                               open_interest := none }]))
        (fun _ => .ok none) (fun _ => .ok none) rfl).2.2.2.1
        (by decide) (by decide) (fun _ => rfl)
    exact ⟨bars, logs, h1, by rw [h2]; decide⟩
  · obtain ⟨ticks, logs, h1, h2⟩ :=
      (bar_timestamp_normalization
        { username := "u", password := "p", inited := true, symbols := ["600000.XSHG"] }
        { symbol := "600000", exchange := .SSE, interval := .TICK, startDate := 0, endDate := 0 }
        []
        [{ dt := 34260, openPrice := 0, highPrice := 0, lowPrice := 0, lastPrice := 0,
           prev_close := 0, volume := 0, total_turnover := 0, limit_up := 0, limit_down := 0,
           b1 := 0, b2 := 0, b3 := 0, b4 := 0, b5 := 0,
           a1 := 0, a2 := 0, a3 := 0, a4 := 0, a5 := 0,
           b1_v := 0, b2_v := 0, b3_v := 0, b4_v := 0, b5_v := 0,
           a1_v := 0, a2_v := 0, a3_v := 0, a4_v := 0, a5_v := 0, open_interest := none }]
        (fun _ => .ok none)
        (fun _ => .ok (some [{ dt := 34260, openPrice := 0, highPrice := 0, lowPrice := 0,
                               lastPrice := 0, prev_close := 0, volume := 0, total_turnover := 0,
                               limit_up := 0, limit_down := 0,
                               b1 := 0, b2 := 0, b3 := 0, b4 := 0, b5 := 0,
                               a1 := 0, a2 := 0, a3 := 0, a4 := 0, a5 := 0,
                               b1_v := 0, b2_v := 0, b3_v := 0, b4_v := 0, b5_v := 0,
                               a1_v := 0, a2_v := 0, a3_v := 0, a4_v := 0, a5_v := 0,
                               open_interest := none }]))
        (fun _ => .ok none) rfl).2.2.2.2.2
        (by decide) (fun _ => rfl)
    refine ⟨ticks, logs, h1, by rw [h2]; simp⟩

/-- C6 counterexample: for an SSE stock-option code already present in the
catalog the direct query does NOT use the translated symbol: the raw code
is queried (the instrumented price function observes the raw symbol). -/
theorem routing_translated_symbol_counterexample :
    ¬(Exchange.SSE ∈ FUTURES_EXCHANGES ∧ pyIsAlpha "10004407" = true) ∧
    resolve_rq_symbol
      { username := "u", password := "p", inited := true, symbols := ["10004407"] }
      "10004407" .SSE = "10004407" ∧
    to_rq_symbol "10004407" .SSE ["10004407"] = "10004407.XSHG" ∧
    ("10004407" : String) ≠ "10004407.XSHG" ∧
    query_bar_history
      { username := "u", password := "p", inited := true, symbols := ["10004407"] }
      { symbol := "10004407", exchange := .SSE, interval := .DAILY, startDate := 0, endDate := 0 }
      (.ok [])
      (fun c => if c.rq_symbol = "10004407.XSHG" then .error "queried-translated"
                else .error "queried-raw")
      (fun _ => .ok none) = .error "queried-raw" :=
  ⟨by decide, by decide, by decide, by decide, rfl⟩

/-- C6 (amended): a bar history request routes to the dominant-contract
query exactly when its exchange is one of the six derivatives exchanges
and its code is purely alphabetic; every other request routes to the
direct query, which uses the translated symbol except when the exchange is
SSE or SZSE and the raw code is already in the catalog, in which case the
raw code is used. -/
theorem query_bar_history_routing (st : DFState) (req : HistoryRequest)
    (p : Except String (List String))
    (gp : PriceCall → Except String (Option (List BarRow)))
    (gdp : DominantCall → Except String (Option (List BarRow))) :
    (req.exchange ∈ FUTURES_EXCHANGES ∧ pyIsAlpha req.symbol = true →
      query_bar_history st req p gp gdp = query_dominant_history st req p gdp) ∧
    (¬(req.exchange ∈ FUTURES_EXCHANGES ∧ pyIsAlpha req.symbol = true) →
      query_bar_history st req p gp gdp = query_bar_history_direct st req p gp) ∧
    (¬(req.exchange ∈ [Exchange.SSE, .SZSE] ∧ req.symbol ∈ st.symbols) →
      resolve_rq_symbol st req.symbol req.exchange =
        to_rq_symbol req.symbol req.exchange st.symbols) ∧
    (req.exchange ∈ [Exchange.SSE, .SZSE] ∧ req.symbol ∈ st.symbols →
      resolve_rq_symbol st req.symbol req.exchange = req.symbol) :=
  ⟨fun h => by simp [query_bar_history, h],
   fun h => by simp [query_bar_history, h],
   fun h => by unfold resolve_rq_symbol; rw [if_neg h],
   fun h => by unfold resolve_rq_symbol; rw [if_pos h]⟩

/-- Witness for C6: concrete routing decisions on both sides of the
condition, and both symbol-resolution cases. -/
theorem query_bar_history_routing_witness :
    query_bar_history { username := "u", password := "p", inited := true, symbols := [] }
      { symbol := "AG", exchange := .SHFE, interval := .DAILY, startDate := 0, endDate := 0 }
      (.ok []) (fun _ => .ok none) (fun _ => .ok none) =
      query_dominant_history { username := "u", password := "p", inited := true, symbols := [] }
        { symbol := "AG", exchange := .SHFE, interval := .DAILY, startDate := 0, endDate := 0 }
        (.ok []) (fun _ => .ok none) ∧
    query_bar_history { username := "u", password := "p", inited := true, symbols := [] }
      { symbol := "rb2410", exchange := .SHFE, interval := .DAILY, startDate := 0, endDate := 0 }
      (.ok []) (fun _ => .ok none) (fun _ => .ok none) =
      query_bar_history_direct { username := "u", password := "p", inited := true, symbols := [] }
        { symbol := "rb2410", exchange := .SHFE, interval := .DAILY, startDate := 0, endDate := 0 }
        (.ok []) (fun _ => .ok none) ∧
    resolve_rq_symbol { username := "u", password := "p", inited := true, symbols := [] }
      "rb2410" .SHFE = to_rq_symbol "rb2410" .SHFE [] ∧
    resolve_rq_symbol { username := "u", password := "p", inited := true, symbols := ["10004407"] }
      "10004407" .SSE = "10004407" := by
  refine ⟨?_, ?_, ?_, ?_⟩
  · exact (query_bar_history_routing _ _ _ _ _).1 (by decide)
  · exact (query_bar_history_routing _ _ _ (fun _ => .ok none) _).2.1 (by decide)
  · exact (query_bar_history_routing _
      { symbol := "rb2410", exchange := .SHFE, interval := .DAILY, startDate := 0, endDate := 0 }
      (.ok []) (fun _ => .ok none) (fun _ => .ok none)).2.2.1 (by decide)
  · exact (query_bar_history_routing _
      { symbol := "10004407", exchange := .SSE, interval := .DAILY, startDate := 0, endDate := 0 }
      (.ok []) (fun _ => .ok none) (fun _ => .ok none)).2.2.2 (by decide)

/-- C7 counterexample: an unsupported interval combined with an unknown
symbol returns empty but reports the unknown symbol, not the unsupported
interval — the unsupported-interval report is not emitted for every
unsupported-interval request. -/
theorem unsupported_interval_report_counterexample :
    INTERVAL_VT2RQ .WEEKLY = none ∧
    query_bar_history
      { username := "u", password := "p", inited := true, symbols := ["600000.XSHG"] }
      { symbol := "XYZ", exchange := .SSE, interval := .WEEKLY, startDate := 0, endDate := 0 }
      (.ok []) (fun _ => .ok none) (fun _ => .ok none) =
      .ok ({ username := "u", password := "p", inited := true, symbols := ["600000.XSHG"] },
           [], [.unsupportedSymbol "XYZ.SSE"]) ∧
    OutputMsg.unsupportedInterval Interval.WEEKLY.value ∉
      [OutputMsg.unsupportedSymbol "XYZ.SSE"] :=
  ⟨rfl, rfl, by decide⟩

/-- C7 (amended): a bar history request with an unsupported interval always
returns an empty sequence and never raises; the unsupported-interval
message reaches the output channel whenever the query reaches the interval
check (init succeeded and, on the direct path, the symbol validated) — an
unknown symbol or failed init is reported instead.  Supported intervals
map minute to "1m", hour to "60m", daily to "1d". -/
theorem unsupported_interval_empty (st : DFState) (req : HistoryRequest)
    (p : Except String (List String))
    (gp : PriceCall → Except String (Option (List BarRow)))
    (gdp : DominantCall → Except String (Option (List BarRow)))
    (hint : INTERVAL_VT2RQ req.interval = none) :
    INTERVAL_VT2RQ .MINUTE = some "1m" ∧
    INTERVAL_VT2RQ .HOUR = some "60m" ∧
    INTERVAL_VT2RQ .DAILY = some "1d" ∧
    ∃ st2 logs, query_bar_history st req p gp gdp = .ok (st2, [], logs) ∧
      ((lazyInit st p).2.1 = true ∧
        (req.exchange ∈ FUTURES_EXCHANGES ∧ pyIsAlpha req.symbol = true ∨
         resolve_rq_symbol (lazyInit st p).1 req.symbol req.exchange ∈
           (lazyInit st p).1.symbols) →
       OutputMsg.unsupportedInterval req.interval.value ∈ logs) := by
  refine ⟨rfl, rfl, rfl, ?_⟩
  by_cases hroute : req.exchange ∈ FUTURES_EXCHANGES ∧ pyIsAlpha req.symbol = true
  · rcases h : lazyInit st p with ⟨st2, ok, logs⟩
    cases ok with
    | false =>
      refine ⟨st2, logs, by simp [query_bar_history, query_dominant_history, hroute, h], ?_⟩
      intro hc
      exact absurd hc.1 (by simp)
    | true =>
      refine ⟨st2, logs ++ [.unsupportedInterval req.interval.value],
        by simp [query_bar_history, query_dominant_history, hroute, h, hint], fun _ => by simp⟩
  · rcases h : lazyInit st p with ⟨st2, ok, logs⟩
    cases ok with
    | false =>
      refine ⟨st2, logs, by simp [query_bar_history, query_bar_history_direct, hroute, h], ?_⟩
      intro hc
      exact absurd hc.1 (by simp)
    | true =>
      by_cases hsym : resolve_rq_symbol st2 req.symbol req.exchange ∈ st2.symbols
      · refine ⟨st2, logs ++ [.unsupportedInterval req.interval.value],
          by simp [query_bar_history, query_bar_history_direct, hroute, h, hsym, hint],
          fun _ => by simp⟩
      · refine ⟨st2, logs ++ [.unsupportedSymbol req.vt_symbol],
          by simp [query_bar_history, query_bar_history_direct, hroute, h, hsym], ?_⟩
        intro hc
        rcases hc.2 with hd | hs
        · exact absurd hd hroute
        · exact absurd hs hsym

/-- Witness for C7: a weekly-interval request on a known symbol returns
empty with the unsupported-interval message logged. -/
theorem unsupported_interval_empty_witness :
    ∃ st2 logs,
      query_bar_history
        { username := "u", password := "p", inited := true, symbols := ["600000.XSHG"] }
        { symbol := "600000", exchange := .SSE, interval := .WEEKLY, startDate := 0, endDate := 0 }
        (.ok []) (fun _ => .ok none) (fun _ => .ok none) = .ok (st2, [], logs) ∧
      OutputMsg.unsupportedInterval "w" ∈ logs := by
  obtain ⟨_, _, _, st2, logs, heq, hmem⟩ :=
    unsupported_interval_empty
      { username := "u", password := "p", inited := true, symbols := ["600000.XSHG"] }
      { symbol := "600000", exchange := .SSE, interval := .WEEKLY, startDate := 0, endDate := 0 }
      (.ok []) (fun _ => .ok none) (fun _ => .ok none) rfl
  exact ⟨st2, logs, heq, hmem ⟨rfl, Or.inr (by decide)⟩⟩

/-- C9: when a push message for a known instrument carries a "bid" key,
`handle_msg` reads elements 0 through 4 of each of the bid, ask, bid_vol
and ask_vol arrays positionally into the five tick depth levels (index 0
is level 1); it therefore requires all four arrays to hold at least five
elements, and a message in which any of them is shorter makes the handler
fault instead of defaulting the missing levels. -/
theorem handle_msg_depth_positional (gn : String)
    (symbol_map : List (String × ContractData)) (data : PushData) (c : ContractData)
    (hk : lookupContract symbol_map data.order_book_id = some c) :
    (∀ b0 b1 b2 b3 b4 bt a0 a1 a2 a3 a4 at2 v0 v1 v2 v3 v4 vt w0 w1 w2 w3 w4 wt,
      data.bid = some (b0 :: b1 :: b2 :: b3 :: b4 :: bt) →
      data.ask = some (a0 :: a1 :: a2 :: a3 :: a4 :: at2) →
      data.bid_vol = some (v0 :: v1 :: v2 :: v3 :: v4 :: vt) →
      data.ask_vol = some (w0 :: w1 :: w2 :: w3 :: w4 :: wt) →
      ∃ t, handle_msg gn symbol_map data = .ok (.emitted t) ∧
        t.bid_price_1 = b0 ∧ t.bid_price_2 = b1 ∧ t.bid_price_3 = b2 ∧
        t.bid_price_4 = b3 ∧ t.bid_price_5 = b4 ∧
        t.ask_price_1 = a0 ∧ t.ask_price_2 = a1 ∧ t.ask_price_3 = a2 ∧
        t.ask_price_4 = a3 ∧ t.ask_price_5 = a4 ∧
        t.bid_volume_1 = v0 ∧ t.bid_volume_2 = v1 ∧ t.bid_volume_3 = v2 ∧
        t.bid_volume_4 = v3 ∧ t.bid_volume_5 = v4 ∧
        t.ask_volume_1 = w0 ∧ t.ask_volume_2 = w1 ∧ t.ask_volume_3 = w2 ∧
        t.ask_volume_4 = w3 ∧ t.ask_volume_5 = w4) ∧
    (∀ bp ap bv av,
      data.bid = some bp → data.ask = some ap →
      data.bid_vol = some bv → data.ask_vol = some av →
      bp.length < 5 ∨ ap.length < 5 ∨ bv.length < 5 ∨ av.length < 5 →
      ∃ e, handle_msg gn symbol_map data = .error e) := by
  constructor
  · intro b0 b1 b2 b3 b4 bt a0 a1 a2 a3 a4 at2 v0 v1 v2 v3 v4 vt w0 w1 w2 w3 w4 wt hb ha hv hw
    simp only [handle_msg, hk, hb, ha, hv, hw]
    exact ⟨_, rfl, rfl, rfl, rfl, rfl, rfl, rfl, rfl, rfl, rfl, rfl, rfl, rfl, rfl, rfl, rfl,
      rfl, rfl, rfl, rfl, rfl⟩
  · intro bp ap bv av hb ha hv hw hshort
    rcases bp with _ | ⟨b0, _ | ⟨b1, _ | ⟨b2, _ | ⟨b3, _ | ⟨b4, bt⟩⟩⟩⟩⟩ <;>
      try exact ⟨"IndexError", by simp only [handle_msg, hk, hb, ha, hv, hw]; rfl⟩
    rcases ap with _ | ⟨a0, _ | ⟨a1, _ | ⟨a2, _ | ⟨a3, _ | ⟨a4, at2⟩⟩⟩⟩⟩ <;>
      try exact ⟨"IndexError", by simp only [handle_msg, hk, hb, ha, hv, hw]; rfl⟩
    rcases bv with _ | ⟨v0, _ | ⟨v1, _ | ⟨v2, _ | ⟨v3, _ | ⟨v4, vt⟩⟩⟩⟩⟩ <;>
      try exact ⟨"IndexError", by simp only [handle_msg, hk, hb, ha, hv, hw]; rfl⟩
    rcases av with _ | ⟨w0, _ | ⟨w1, _ | ⟨w2, _ | ⟨w3, _ | ⟨w4, wt⟩⟩⟩⟩⟩ <;>
      try exact ⟨"IndexError", by simp only [handle_msg, hk, hb, ha, hv, hw]; rfl⟩
    exfalso
    rcases hshort with h | h | h | h <;> simp at h <;> omega

/-- Witness for C9: a full five-level message populates the levels
positionally; the same message with a four-element bid array faults. -/
theorem handle_msg_depth_positional_witness :
    (∃ t, handle_msg "RQDATA"
      [("IF2409", { symbol := "IF2409", exchange := .CFFEX, name := "中证期指", product := .FUTURES,
                    size := 300, pricetick := 1/100, min_volume := 1, gateway_name := "RQDATA" })]
      { order_book_id := "IF2409", dt := 0, volume := 1, total_turnover := 2,
        open_interest := none, lastPrice := 3, limit_up := none, limit_down := none,
        openPrice := 4, highPrice := 5, lowPrice := 6, prev_close := 7,
        bid := some [11, 12, 13, 14, 15], ask := some [21, 22, 23, 24, 25],
        bid_vol := some [31, 32, 33, 34, 35], ask_vol := some [41, 42, 43, 44, 45] } =
      .ok (.emitted t) ∧ t.bid_price_1 = 11 ∧ t.ask_volume_5 = 45) ∧
    (∃ e, handle_msg "RQDATA"
      [("IF2409", { symbol := "IF2409", exchange := .CFFEX, name := "中证期指", product := .FUTURES,
                    size := 300, pricetick := 1/100, min_volume := 1, gateway_name := "RQDATA" })]
      { order_book_id := "IF2409", dt := 0, volume := 1, total_turnover := 2,
        open_interest := none, lastPrice := 3, limit_up := none, limit_down := none,
        openPrice := 4, highPrice := 5, lowPrice := 6, prev_close := 7,
        bid := some [11, 12, 13, 14], ask := some [21, 22, 23, 24, 25],
        bid_vol := some [31, 32, 33, 34, 35], ask_vol := some [41, 42, 43, 44, 45] } =
      .error e) := by
  constructor
  · obtain ⟨t, ht, e1, e2, e3, e4, e5, f1, f2, f3, f4, f5, g1, g2, g3, g4, g5, k1, k2, k3, k4, k5⟩ :=
      (handle_msg_depth_positional "RQDATA"
        [(("IF2409" : String),
          ({ symbol := "IF2409", exchange := .CFFEX, name := "中证期指", product := .FUTURES,
             size := 300, pricetick := 1/100, min_volume := 1,
             gateway_name := "RQDATA" } : ContractData))]
        ({ order_book_id := "IF2409", dt := 0, volume := 1, total_turnover := 2,
           open_interest := none, lastPrice := 3, limit_up := none, limit_down := none,
           openPrice := 4, highPrice := 5, lowPrice := 6, prev_close := 7,
           bid := some [11, 12, 13, 14, 15], ask := some [21, 22, 23, 24, 25],
           bid_vol := some [31, 32, 33, 34, 35],
           ask_vol := some [41, 42, 43, 44, 45] } : PushData)
        ({ symbol := "IF2409", exchange := .CFFEX, name := "中证期指", product := .FUTURES,
           size := 300, pricetick := 1/100, min_volume := 1,
           gateway_name := "RQDATA" } : ContractData) rfl).1
        11 12 13 14 15 [] 21 22 23 24 25 [] 31 32 33 34 35 [] 41 42 43 44 45 []
        rfl rfl rfl rfl
    exact ⟨t, ht, e1, k5⟩
  · exact (handle_msg_depth_positional "RQDATA"
      [(("IF2409" : String),
        ({ symbol := "IF2409", exchange := .CFFEX, name := "中证期指", product := .FUTURES,
           size := 300, pricetick := 1/100, min_volume := 1,
           gateway_name := "RQDATA" } : ContractData))]
      ({ order_book_id := "IF2409", dt := 0, volume := 1, total_turnover := 2,
         open_interest := none, lastPrice := 3, limit_up := none, limit_down := none,
         openPrice := 4, highPrice := 5, lowPrice := 6, prev_close := 7,
         bid := some [11, 12, 13, 14], ask := some [21, 22, 23, 24, 25],
         bid_vol := some [31, 32, 33, 34, 35],
         ask_vol := some [41, 42, 43, 44, 45] } : PushData)
      ({ symbol := "IF2409", exchange := .CFFEX, name := "中证期指", product := .FUTURES,
         size := 300, pricetick := 1/100, min_volume := 1,
         gateway_name := "RQDATA" } : ContractData) rfl).2
      [11, 12, 13, 14] [21, 22, 23, 24, 25] [31, 32, 33, 34, 35] [41, 42, 43, 44, 45]
      rfl rfl rfl rfl (by decide)

/-- Helper: rows whose exchange does not resolve are skipped (`continue`)
and leave the loop environment unchanged. -/
theorem process_rows_skip (gn : String) (rows : List InstRow) (env : QCEnv)
    (h : ∀ row ∈ rows, EXCHANGE_RQDATA2VT row.exchange = none) :
    process_rows gn "CS" env rows = .ok env := by
  induction rows generalizing env with
  | nil => rfl
  | cons row rest ih =>
    have hr := h row (by simp)
    simp only [process_rows, process_row, resolve_row, hr, reduceIte, Except.bind]
    simp only [bind, Except.bind]
    exact ih env (fun r hmem => h r (by simp [hmem]))

/-- C10: `query_contract` assigns the locals size, pricetick and
product_name only for rows whose provider type maps to the equity, fund,
index or futures product; a row mapping to any other product (option,
bond) silently reuses the size and pricetick left behind by the previously
processed row, faults with NameError when no assigning row preceded it,
and the per-category log line likewise faults when the first category
produced no usable row. -/
theorem query_contract_stale_locals (gn t : String) (env : QCEnv) (row : InstRow)
    (sym : String) (exch : Exchange) (p : Product)
    (hres : resolve_row t row = .ok (sym, some exch))
    (hprod : PRODUCT_MAP row.type = some p)
    (hp : p = .OPTION ∨ p = .BOND) :
    (∀ s q, env.size = some s → env.pricetick = some q →
      process_row gn t env row = .ok { env with
        contracts := env.contracts ++
          [{ symbol := sym, exchange := exch, name := row.symbol, product := p, size := s,
             pricetick := q, min_volume := row.round_lot, gateway_name := gn }],
        symbol_map := env.symbol_map ++
          [(row.order_book_id,
            { symbol := sym, exchange := exch, name := row.symbol, product := p, size := s,
              pricetick := q, min_volume := row.round_lot, gateway_name := gn })] }) ∧
    (env.size = none → process_row gn t env row = .error "NameError") ∧
    (∀ rowsOf : String → List InstRow,
      (∀ r ∈ rowsOf "CS", EXCHANGE_RQDATA2VT r.exchange = none) →
      query_contract gn rowsOf = .error "NameError") := by
  refine ⟨?_, ?_, ?_⟩
  · intro s q hs hq
    rcases hp with rfl | rfl <;>
      simp [process_row, hres, hprod, hs, hq, bind, Except.bind, pure, Except.pure]
  · intro hs
    rcases hp with rfl | rfl <;>
      cases hq : env.pricetick <;>
        simp [process_row, hres, hprod, hs, hq, bind, Except.bind, pure, Except.pure]
  · intro rowsOf h
    have hskip := process_rows_skip gn (rowsOf "CS") QCEnv.empty h
    simp only [query_contract, List.foldlM, process_category]
    rw [hskip]
    rfl

/-- Witness for C10: an option row after a futures row reuses size 300 and
the futures pricetick; the same row as the very first one faults; a first
category whose only row has an unrecognized exchange makes the whole
catalog query fault at the log line. -/
theorem query_contract_stale_locals_witness :
    (∃ env2, process_row "RQDATA" "Future"
      { size := some 300, pricetick := some (1/100), product_name := some "期货",
        contracts := [], symbol_map := [], logs := [] }
      { order_book_id := "M2501C3000", trading_code := "m2501-C-3000", exchange := "DCE",
        symbol := "豆粕期权", type := "Option", round_lot := 1, contract_multiplier := 10 } =
      .ok env2 ∧
      env2.contracts.map ContractData.size = [300] ∧
      env2.contracts.map ContractData.product = [.OPTION]) ∧
    process_row "RQDATA" "Future" QCEnv.empty
      { order_book_id := "M2501C3000", trading_code := "m2501-C-3000", exchange := "DCE",
        symbol := "豆粕期权", type := "Option", round_lot := 1, contract_multiplier := 10 } =
      .error "NameError" ∧
    query_contract "RQDATA" (fun _ =>
      [{ order_book_id := "AAPL.NYSE", trading_code := "AAPL", exchange := "NYSE",
         symbol := "AAPL", type := "CS", round_lot := 1, contract_multiplier := 1 }]) =
      .error "NameError" := by
  refine ⟨?_, ?_, ?_⟩
  · have h1 := (query_contract_stale_locals "RQDATA" "Future"
      { size := some 300, pricetick := some (1/100), product_name := some "期货",
        contracts := [], symbol_map := [], logs := [] }
      { order_book_id := "M2501C3000", trading_code := "m2501-C-3000", exchange := "DCE",
        symbol := "豆粕期权", type := "Option", round_lot := 1, contract_multiplier := 10 }
      "m2501-C-3000" .DCE .OPTION rfl rfl (Or.inl rfl)).1 300 (1/100) rfl rfl
    exact ⟨_, h1, rfl, rfl⟩
  · exact (query_contract_stale_locals "RQDATA" "Future" QCEnv.empty
      { order_book_id := "M2501C3000", trading_code := "m2501-C-3000", exchange := "DCE",
        symbol := "豆粕期权", type := "Option", round_lot := 1, contract_multiplier := 10 }
      "m2501-C-3000" .DCE .OPTION rfl rfl (Or.inl rfl)).2.1 rfl
  · exact (query_contract_stale_locals "RQDATA" "Future" QCEnv.empty
      { order_book_id := "M2501C3000", trading_code := "m2501-C-3000", exchange := "DCE",
        symbol := "豆粕期权", type := "Option", round_lot := 1, contract_multiplier := 10 }
      "m2501-C-3000" .DCE .OPTION rfl rfl (Or.inl rfl)).2.2 _ (by decide)

end VnpyRqdata
